import Mathlib

/-!
Verification of the generation orchestration and output-shaping logic of
src/llm_inference.py: the configuration record (InferenceArguments), the
device-memory planner (LLM.set_max_memory), the generation orchestrator
(LLM.generate_from_model) and the output reshaper (LLM.reshape_model_outputs).

Modelling conventions: Python ints are Int (Nat where the quantity is a
count), Python floats are exact rationals (the float literal 0.6 is the
rational 3/5, 0.9 is 9/10), Python lists are List, raised exceptions are
the error side of Except. Logging calls have no effect on any result and
are omitted.
-/

namespace LLMInference

/-- Embedding of the InferenceArguments dataclass (src/llm_inference.py,
lines 36-217): one field per dataclass field, with the same defaults.
Fields typed `int` in Python but defaulted to None are Option Int; string
fields defaulted to None are Option String. -/
structure InferenceArguments where
  model_name_or_path : String
  load_in_8bit : Bool := true
  offload_state_dict : Bool := true
  offload_folder : Option String := none
  device_map : String := "auto"
  max_memory : ℚ := 1
  seed : Int := 42
  use_cuda : Bool := true
  batch_size : Int := 8
  min_length : Option Int := none
  max_new_tokens : Int := 100
  length_penalty : ℚ := 1
  no_early_stop : Bool := false
  num_return_sequences : Int := 1
  num_beams : Int := 1
  do_sample : Bool := true
  temperature : ℚ := 1
  top_k : Int := 0
  top_p : ℚ := 9/10
  verbose : Bool := false
  input_file : Option String := none
  output_dir : String := "data/outputs/"
  output_file : Option String := none
  source_key : String := "complex"
  prompt_prefix : Option String := none
  prompt_format : String := "prefix_initial"
  few_shot_n : Int := 0
  example_separator : String := "\\n\\n"
  n_refs : Int := 1
  ref_delimiter : String := "\\t"
  examples : Option String := none
  deriving Repr, DecidableEq

/-- The error kind the specification assigns to invalid configuration
values. No code path in src/llm_inference.py constructs or raises such an
error: the dataclass performs no validation. -/
inductive ConfigurationError where
  | invalidValue (msg : String)
  deriving Repr, DecidableEq

/-- Embedding of constructing an InferenceArguments value (the
dataclass-generated init of src/llm_inference.py lines 36-217): it binds
the supplied field values and performs no validation whatsoever, so it
always succeeds with the record unchanged. -/
def InferenceArguments.construct (a : InferenceArguments) :
    Except ConfigurationError InferenceArguments :=
  .ok a

/-- Failure modes of LLM.reshape_model_outputs. In Python all three are a
raised ValueError:
rangeStepZero is raised by range(0, M, 0) in the chunking comprehension
(line 308) when the slicing step M // B is zero; wrongChunkCount is the
chunk-count validation (lines 310-311); wrongChunkSize is the first-chunk
size validation (lines 313-314). divisionByZero is the ZeroDivisionError
of M // 0 (line 302). -/
inductive ReshapeError where
  | rangeStepZero
  | wrongChunkCount (got expected : Nat)
  | wrongChunkSize (got expected : Nat)
  | divisionByZero
  deriving Repr, DecidableEq

namespace LLM

/-- Embedding of the static method LLM.reshape_model_outputs
(src/llm_inference.py lines 294-316). The comprehension
outputs[i:i+k] for i in range(0, M, k) is the map of the slice
(outputs.drop i).take k over List.range' 0 c k, where c = (M + k - 1) / k
is the element count of range(0, M, k) for k >= 1; Python range raises
ValueError when the step k = M // B is zero. The informational log at
lines 304-305 does not affect the result and is omitted. -/
def reshape_model_outputs (outputs : List String) (input_batch_size : Nat) :
    Except ReshapeError (List (List String)) :=
  let num_return_sequences := outputs.length
  if input_batch_size = 0 then .error .divisionByZero else
  let return_seqs_per_input := num_return_sequences / input_batch_size
  if return_seqs_per_input = 0 then .error .rangeStepZero else
  let chunked :=
    (List.range' 0 ((num_return_sequences + return_seqs_per_input - 1) / return_seqs_per_input)
        return_seqs_per_input).map
      (fun i => (outputs.drop i).take return_seqs_per_input)
  if chunked.length ≠ input_batch_size then
    .error (.wrongChunkCount chunked.length input_batch_size)
  else if (chunked.headD []).length ≠ return_seqs_per_input then
    .error (.wrongChunkSize (chunked.headD []).length return_seqs_per_input)
  else
    .ok chunked

end LLM

/-- Splitting a list into b consecutive chunks of size k: the closed form
that the range-based slicing of reshape_model_outputs produces when the
list length is an exact multiple of the step. -/
def chunkList {α : Type} (k : Nat) : Nat → List α → List (List α)
  | 0, _ => []
  | b + 1, l => l.take k :: chunkList k b (l.drop k)

lemma chunkList_length {α : Type} (k : Nat) :
    ∀ (b : Nat) (l : List α), (chunkList k b l).length = b := by
  intro b
  induction b with
  | zero => intro l; rfl
  | succ n ih => intro l; simp [chunkList, ih]

lemma range'_map_chunk {α : Type} (k : Nat) :
    ∀ (b : Nat) (l : List α),
      (List.range' 0 b k).map (fun i => (l.drop i).take k) = chunkList k b l := by
  intro b
  induction b with
  | zero => intro l; rfl
  | succ n ih =>
    intro l
    rw [List.range'_succ]
    have hshift : List.range' (0 + k) n k = (List.range' 0 n k).map (k + ·) := by
      rw [Nat.add_comm 0 k]
      exact (List.map_add_range' k 0 n k).symm
    have hfun : (fun i => (l.drop (k + i)).take k) =
        (fun i => (((l.drop k).drop i).take k)) := by
      funext i
      rw [List.drop_drop]
    calc ((0 : Nat) :: List.range' (0 + k) n k).map (fun i => (l.drop i).take k)
        = (l.drop 0).take k ::
            ((List.range' 0 n k).map (k + ·)).map (fun i => (l.drop i).take k) := by
          rw [hshift, List.map_cons]
      _ = l.take k :: (List.range' 0 n k).map (fun i => (l.drop (k + i)).take k) := by
          rw [List.drop_zero, List.map_map]
          rfl
      _ = l.take k :: (List.range' 0 n k).map (fun i => ((l.drop k).drop i).take k) := by
          rw [hfun]
      _ = l.take k :: chunkList k n (l.drop k) := by rw [ih]
      _ = chunkList k (n + 1) l := rfl

lemma chunkList_map_length {α : Type} (k : Nat) :
    ∀ (b : Nat) (l : List α), l.length = b * k →
      (chunkList k b l).map List.length = List.replicate b k := by
  intro b
  induction b with
  | zero => intro l _; rfl
  | succ n ih =>
    intro l hl
    have hk_le : k ≤ l.length := by
      rw [hl, Nat.succ_mul]
      exact Nat.le_add_left k (n * k)
    have hdrop : (l.drop k).length = n * k := by
      rw [List.length_drop, hl, Nat.succ_mul]
      omega
    simp only [chunkList, List.map_cons, List.length_take, List.replicate_succ]
    rw [ih (l.drop k) hdrop]
    congr 1
    omega

lemma chunkList_join {α : Type} (k : Nat) :
    ∀ (b : Nat) (l : List α), l.length = b * k → (chunkList k b l).flatten = l := by
  intro b
  induction b with
  | zero =>
    intro l hl
    have : l = [] := List.eq_nil_of_length_eq_zero (by simpa using hl)
    simp [this, chunkList]
  | succ n ih =>
    intro l hl
    have hdrop : (l.drop k).length = n * k := by
      rw [List.length_drop, hl, Nat.succ_mul]
      omega
    simp only [chunkList, List.flatten_cons]
    rw [ih (l.drop k) hdrop, List.take_append_drop]

lemma ceil_div_exact (B k : Nat) (hk : 0 < k) : (B * k + k - 1) / k = B := by
  have h1 : B * k + k - 1 = k * B + (k - 1) := by
    rw [Nat.mul_comm B k]
    omega
  have h2 : (k - 1) / k = 0 := Nat.div_eq_of_lt (by omega)
  rw [h1, Nat.mul_add_div hk, h2]
  omega

lemma numChunks_gt_of_not_dvd (M B : Nat) (hk : 0 < M / B)
    (hnd : ¬ B ∣ M) : B < (M + M / B - 1) / (M / B) := by
  set k := M / B with hk_def
  set r := M % B with hr_def
  have hmod : B * k + r = M := Nat.div_add_mod M B
  have hr : r ≠ 0 := fun h0 => hnd (Nat.dvd_of_mod_eq_zero (hr_def ▸ h0))
  have h1 : M + k - 1 = k * B + (r + k - 1) := by
    rw [← hmod, Nat.mul_comm B k]
    omega
  rw [h1, Nat.mul_add_div hk]
  have h2 : 1 ≤ (r + k - 1) / k := (Nat.one_le_div_iff hk).mpr (by omega)
  omega

lemma reshape_ok_of_exact (outputs : List String) (B k : Nat)
    (hB : 0 < B) (hk : 0 < k) (hlen : outputs.length = B * k) :
    LLM.reshape_model_outputs outputs B = .ok (chunkList k B outputs) := by
  have hdiv : outputs.length / B = k := by
    rw [hlen]
    exact Nat.mul_div_cancel_left k hB
  have hceil : (outputs.length + k - 1) / k = B := by
    rw [hlen]
    exact ceil_div_exact B k hk
  have hhead : ((chunkList k B outputs).headD []).length = k := by
    obtain ⟨b, rfl⟩ : ∃ b, B = b + 1 := ⟨B - 1, by omega⟩
    have hle : k ≤ (b + 1) * k := by
      calc k = 1 * k := (Nat.one_mul k).symm
        _ ≤ (b + 1) * k := Nat.mul_le_mul_right k (by omega)
    simp only [chunkList, List.headD_cons, List.length_take]
    rw [hlen]
    omega
  simp only [LLM.reshape_model_outputs]
  rw [if_neg (by omega : ¬ B = 0), hdiv, if_neg (by omega : ¬ k = 0), hceil,
    range'_map_chunk, chunkList_length, if_neg (by simp : ¬ B ≠ B), hhead,
    if_neg (by simp : ¬ k ≠ k)]

lemma reshape_step_zero (outputs : List String) (B : Nat) (hB : B ≠ 0)
    (hk : outputs.length / B = 0) :
    LLM.reshape_model_outputs outputs B = .error .rangeStepZero := by
  simp only [LLM.reshape_model_outputs]
  rw [if_neg hB, if_pos hk]

lemma reshape_not_dvd_count_error (outputs : List String) (B : Nat) (hB : B ≠ 0)
    (hk : outputs.length / B ≠ 0) (hnd : ¬ B ∣ outputs.length) :
    LLM.reshape_model_outputs outputs B =
      .error (.wrongChunkCount
        ((outputs.length + outputs.length / B - 1) / (outputs.length / B)) B) := by
  have hgt := numChunks_gt_of_not_dvd outputs.length B (Nat.pos_of_ne_zero hk) hnd
  simp only [LLM.reshape_model_outputs]
  rw [if_neg hB, if_neg hk, if_pos]
  · congr 1
    simp
  · simp only [List.length_map, List.length_range']
    omega

lemma reshape_ok_imp (outputs : List String) (B : Nat) (gs : List (List String))
    (h : LLM.reshape_model_outputs outputs B = .ok gs) :
    0 < B ∧ 0 < outputs.length / B ∧
    outputs.length = B * (outputs.length / B) ∧
    gs = chunkList (outputs.length / B) B outputs := by
  simp only [LLM.reshape_model_outputs] at h
  split at h
  · simp at h
  next hB =>
    split at h
    · simp at h
    next hk =>
      split at h
      · simp at h
      next hcnt =>
        split at h
        · simp at h
        next hfst =>
          have hgs : gs = (List.range' 0
              ((outputs.length + outputs.length / B - 1) / (outputs.length / B))
              (outputs.length / B)).map
            (fun i => (outputs.drop i).take (outputs.length / B)) := by
            injection h with h
            exact h.symm
          have hcnt' : ((outputs.length + outputs.length / B - 1) /
              (outputs.length / B)) = B := by
            simpa using Classical.not_not.mp (by simpa using hcnt)
          have hdvd : B ∣ outputs.length := by
            by_contra hnd
            have := numChunks_gt_of_not_dvd outputs.length B (by omega) hnd
            omega
          refine ⟨by omega, by omega, (Nat.mul_div_cancel' hdvd).symm, ?_⟩
          rw [hgs, hcnt', range'_map_chunk]

/-- C1: for every flat list of strings of length M and every batch size B
with B >= 1, M divisible by B, and M / B = k >= 1, reshape_model_outputs
returns the B consecutive chunks of the flat list, in order: B groups
whose list of lengths is replicate B k (so exactly B groups of length k,
order preserved within and across groups), and concatenating the groups in
order reproduces the original flat list. -/
theorem reshape_divisible_roundtrip (outputs : List String) (B k : Nat)
    (hB : 1 ≤ B) (hk : 1 ≤ k) (hlen : outputs.length = B * k) :
    LLM.reshape_model_outputs outputs B = .ok (chunkList k B outputs) ∧
    (chunkList k B outputs).map List.length = List.replicate B k ∧
    (chunkList k B outputs).flatten = outputs :=
  ⟨reshape_ok_of_exact outputs B k hB hk hlen,
    chunkList_map_length k B outputs hlen, chunkList_join k B outputs hlen⟩

theorem reshape_divisible_roundtrip_witness :
    LLM.reshape_model_outputs ["a", "b", "c", "d", "e", "f"] 3 =
      .ok (chunkList 2 3 ["a", "b", "c", "d", "e", "f"]) ∧
    (chunkList 2 3 ["a", "b", "c", "d", "e", "f"]).map List.length =
      List.replicate 3 2 ∧
    (chunkList 2 3 ["a", "b", "c", "d", "e", "f"]).flatten =
      ["a", "b", "c", "d", "e", "f"] :=
  reshape_divisible_roundtrip ["a", "b", "c", "d", "e", "f"] 3 2
    (by decide) (by decide) (by decide)

/-- C2: for every flat list of strings whose length M is not evenly
divisible by the batch size B >= 1, reshape_model_outputs raises (returns
the error side, a ReshapeError) rather than returning a grouped result:
for M < B the ValueError comes from the zero slicing step, otherwise from
the chunk-count validation. -/
theorem reshape_not_divisible_fails (outputs : List String) (B : Nat)
    (hB : 1 ≤ B) (hnd : ¬ B ∣ outputs.length) :
    (LLM.reshape_model_outputs outputs B).isOk = false := by
  by_cases hk : outputs.length / B = 0
  · rw [reshape_step_zero outputs B (by omega) hk]
    rfl
  · rw [reshape_not_dvd_count_error outputs B (by omega) hk hnd]
    rfl

theorem reshape_not_divisible_fails_witness :
    (LLM.reshape_model_outputs ["a", "b", "c"] 2).isOk = false :=
  reshape_not_divisible_fails ["a", "b", "c"] 2 (by decide) (by decide)

/-- C9: for every batch size B >= 1 and flat output list of length M with
M < B (so that the slicing step M // B is zero, including M = 0), the
chunking comprehension itself fails with the zero-step range ValueError,
before either of the documented count and size validation checks is
reached, and no grouped result is returned. -/
theorem reshape_small_fails_at_chunking (outputs : List String) (B : Nat)
    (hB : 1 ≤ B) (hlt : outputs.length < B) :
    LLM.reshape_model_outputs outputs B = .error .rangeStepZero :=
  reshape_step_zero outputs B (by omega) (Nat.div_eq_of_lt hlt)

theorem reshape_small_fails_at_chunking_witness :
    LLM.reshape_model_outputs [] 1 = .error .rangeStepZero :=
  reshape_small_fails_at_chunking [] 1 (by decide) (by decide)

/-- C10: whenever reshape_model_outputs returns successfully for a flat
list of length M and batch size B, M is an exact multiple of B and every
inner group (not only the validated first one) has length exactly M / B:
the list of group lengths is replicate B (M / B). -/
theorem reshape_ok_group_sizes (outputs : List String) (B : Nat)
    (gs : List (List String))
    (h : LLM.reshape_model_outputs outputs B = .ok gs) :
    B ∣ outputs.length ∧
    gs.map List.length = List.replicate B (outputs.length / B) := by
  obtain ⟨hB, hk, hlen, rfl⟩ := reshape_ok_imp outputs B gs h
  exact ⟨⟨outputs.length / B, hlen⟩,
    chunkList_map_length (outputs.length / B) B outputs hlen⟩

theorem reshape_ok_group_sizes_witness :
    2 ∣ (["a", "b", "c", "d"] : List String).length ∧
    [["a", "b"], ["c", "d"]].map List.length =
      List.replicate 2 ((["a", "b", "c", "d"] : List String).length / 2) :=
  reshape_ok_group_sizes ["a", "b", "c", "d"] 2 [["a", "b"], ["c", "d"]] rfl

/-- Device identifiers: keys of the max_memory dict built by
LLM.set_max_memory — an ordinal GPU index or the host-memory key cpu. -/
inductive Device where
  | gpu (i : Nat)
  | cpu
  deriving Repr, DecidableEq

namespace LLM

/-- The max_memory dict built at src/llm_inference.py lines 252-255: one
entry per device index i in range(n_gpus), mapping i to the GiB quantity
floor(t * max_memory) for i > 0 and floor(t * max_memory * 0.6) for i = 0,
plus the fixed host entry cpu to 400 GiB added at line 255. The memory
quantity is the integer GiB amount inside the formatted string; the float
literal 0.6 is the rational 3/5. -/
def maxMemoryDict (n_gpus : Nat) (max_memory t : ℚ) : List (Device × Int) :=
  ((List.range n_gpus).map fun i =>
    (Device.gpu i,
      if 0 < i then Int.floor (t * max_memory)
      else Int.floor (t * max_memory * (3/5)))) ++
  [(Device.cpu, 400)]

/-- Embedding of LLM.set_max_memory (src/llm_inference.py lines 244-260)
as a pure function of the values it reads: n_gpus from
torch.cuda.device_count(), the configured fraction args.max_memory, and t,
the total memory of device 0 in GiB. The Python guard
args.max_memory and args.max_memory != 1.0 and n_gpus > 1 tests float
truthiness first, so it holds when the fraction differs from 0, differs
from 1, and more than one GPU is visible; otherwise None is returned and
the backend uses its own default placement. -/
def set_max_memory (n_gpus : Nat) (max_memory t : ℚ) :
    Option (List (Device × Int)) :=
  if max_memory ≠ 0 ∧ max_memory ≠ 1 ∧ 1 < n_gpus then
    some (maxMemoryDict n_gpus max_memory t)
  else
    none

end LLM

lemma maxMemoryDict_gpu_mem {N : Nat} {f t : ℚ} {j : Nat} {b : Int}
    (h : (Device.gpu j, b) ∈ LLM.maxMemoryDict N f t) :
    b = if 0 < j then Int.floor (t * f) else Int.floor (t * f * (3/5)) := by
  unfold LLM.maxMemoryDict at h
  rcases List.mem_append.mp h with h | h
  · obtain ⟨a, ha, he⟩ := List.mem_map.mp h
    injection he with e1 e2
    injection e1 with e1
    subst e1
    exact e2.symm
  · rw [List.mem_singleton] at h
    injection h with e1 e2
    exact absurd e1 (by simp)

lemma maxMemoryDict_mem_gpu (N : Nat) (f t : ℚ) (i : Nat) (hi : i < N) :
    (Device.gpu i, if 0 < i then Int.floor (t * f) else Int.floor (t * f * (3/5)))
      ∈ LLM.maxMemoryDict N f t := by
  unfold LLM.maxMemoryDict
  exact List.mem_append_left _ (List.mem_map.mpr ⟨i, List.mem_range.mpr hi, rfl⟩)

lemma maxMemoryDict_mem_cpu (N : Nat) (f t : ℚ) :
    (Device.cpu, (400 : Int)) ∈ LLM.maxMemoryDict N f t := by
  unfold LLM.maxMemoryDict
  exact List.mem_append_right _ (List.mem_singleton.mpr rfl)

lemma set_max_memory_concrete :
    LLM.set_max_memory 2 (4/5) 40 =
      some [(Device.gpu 0, 19), (Device.gpu 1, 32), (Device.cpu, 400)] := by
  unfold LLM.set_max_memory LLM.maxMemoryDict
  rw [if_pos (by norm_num : ((4/5 : ℚ) ≠ 0 ∧ (4/5 : ℚ) ≠ 1 ∧ 1 < 2))]
  norm_num [List.range_succ]

/-- C4: when the planner plans (N > 1 devices and a fraction f strictly
between 0 and 1), the returned budget map holds, for every device index
i < N, the entry mapping device i to floor(t * f) GiB for i > 0 and
floor(t * f * 0.6) GiB for i = 0, plus the fixed host fallback of 400 GiB
for the cpu key; in particular for N = 2, f = 4/5, t = 40 the budgets are
19 for device 0 and 32 for device 1, with the host entry present. -/
theorem set_max_memory_plan_budgets (N : Nat) (f t : ℚ) (i : Nat)
    (hN : 1 < N) (h0 : 0 < f) (h1 : f < 1) (hi : i < N) :
    LLM.set_max_memory N f t = some (LLM.maxMemoryDict N f t) ∧
    (Device.gpu i, if 0 < i then Int.floor (t * f) else Int.floor (t * f * (3/5)))
      ∈ LLM.maxMemoryDict N f t ∧
    (Device.cpu, (400 : Int)) ∈ LLM.maxMemoryDict N f t ∧
    LLM.set_max_memory 2 (4/5) 40 =
      some [(Device.gpu 0, 19), (Device.gpu 1, 32), (Device.cpu, 400)] := by
  refine ⟨?_, maxMemoryDict_mem_gpu N f t i hi, maxMemoryDict_mem_cpu N f t,
    set_max_memory_concrete⟩
  unfold LLM.set_max_memory
  rw [if_pos ⟨ne_of_gt h0, ne_of_lt h1, hN⟩]

theorem set_max_memory_plan_budgets_witness :
    LLM.set_max_memory 2 (4/5) 40 = some (LLM.maxMemoryDict 2 (4/5) 40) ∧
    (Device.gpu 1, if 0 < 1 then Int.floor ((40 : ℚ) * (4/5))
      else Int.floor ((40 : ℚ) * (4/5) * (3/5)))
      ∈ LLM.maxMemoryDict 2 (4/5) 40 ∧
    (Device.cpu, (400 : Int)) ∈ LLM.maxMemoryDict 2 (4/5) 40 ∧
    LLM.set_max_memory 2 (4/5) 40 =
      some [(Device.gpu 0, 19), (Device.gpu 1, 32), (Device.cpu, 400)] :=
  set_max_memory_plan_budgets 2 (4/5) 40 1 (by omega) (by norm_num)
    (by norm_num) (by omega)

/-- C5: whenever the fraction is exactly 1 or at most one device is
visible, the planner is skipped and no explicit plan is returned,
regardless of the per-device total t. -/
theorem set_max_memory_no_plan (N : Nat) (f t : ℚ) (h : f = 1 ∨ N ≤ 1) :
    LLM.set_max_memory N f t = none := by
  unfold LLM.set_max_memory
  rcases h with h | h
  · exact if_neg (fun hc => hc.2.1 h)
  · exact if_neg (fun hc => absurd hc.2.2 (by omega))

theorem set_max_memory_no_plan_witness :
    LLM.set_max_memory 1 (1/2) 40 = none :=
  set_max_memory_no_plan 1 (1/2) 40 (Or.inr (by omega))

/-- C6 as stated is false: with N = 2, f = 1/2 and per-device total t = 1
the planner produces budget 0 for device 0 (floor of 3/10) and budget 0
for device 1 (floor of 1/2), so the budget of device 0 is not strictly
less than the budget of device 1. -/
theorem set_max_memory_budget_not_strict :
    LLM.set_max_memory 2 (1/2) 1 =
      some [(Device.gpu 0, 0), (Device.gpu 1, 0), (Device.cpu, 400)] ∧
    ¬ ((0 : Int) < 0) := by
  constructor
  · unfold LLM.set_max_memory LLM.maxMemoryDict
    rw [if_pos (by norm_num : ((1/2 : ℚ) ≠ 0 ∧ (1/2 : ℚ) ≠ 1 ∧ 1 < 2))]
    norm_num [List.range_succ]
  · omega

/-- C6 amended: for every budget map planned with N > 1 devices, a
fraction f strictly between 0 and 1 and a nonnegative per-device total t,
the budget of device 0 is at most (not necessarily strictly less than) the
budget of every device with index i > 0. -/
theorem set_max_memory_first_gpu_le (N : Nat) (f t : ℚ)
    (m : List (Device × Int)) (i : Nat) (b0 bi : Int)
    (hN : 1 < N) (h0 : 0 < f) (h1 : f < 1) (ht : 0 ≤ t)
    (hm : LLM.set_max_memory N f t = some m) (hi : 0 < i)
    (hb0 : (Device.gpu 0, b0) ∈ m) (hbi : (Device.gpu i, bi) ∈ m) :
    b0 ≤ bi := by
  have hmem : m = LLM.maxMemoryDict N f t := by
    unfold LLM.set_max_memory at hm
    rw [if_pos ⟨ne_of_gt h0, ne_of_lt h1, hN⟩] at hm
    injection hm with hm
    exact hm.symm
  subst hmem
  have e0 := maxMemoryDict_gpu_mem hb0
  have ei := maxMemoryDict_gpu_mem hbi
  rw [if_neg (by omega : ¬ (0 : Nat) < 0)] at e0
  rw [if_pos hi] at ei
  subst e0
  subst ei
  have htf : (0 : ℚ) ≤ t * f := mul_nonneg ht (le_of_lt h0)
  have hle : t * f * (3/5) ≤ t * f := by
    calc t * f * (3/5) ≤ t * f * 1 := by
          exact mul_le_mul_of_nonneg_left (by norm_num) htf
      _ = t * f := mul_one _
  exact Int.floor_mono hle

theorem set_max_memory_first_gpu_le_witness : (19 : Int) ≤ 32 :=
  set_max_memory_first_gpu_le 2 (4/5) 40
    [(Device.gpu 0, 19), (Device.gpu 1, 32), (Device.cpu, 400)] 1 19 32
    (by omega) (by norm_num) (by norm_num) (by norm_num)
    set_max_memory_concrete (by omega) (by simp) (by simp)

/-- C8: the planner is a pure function with no hidden state: two calls
whose device count, memory fraction and per-device total agree return
identical results. -/
theorem set_max_memory_deterministic (N M : Nat) (f g t u : ℚ)
    (hN : N = M) (hf : f = g) (ht : t = u) :
    LLM.set_max_memory N f t = LLM.set_max_memory M g u := by
  subst hN
  subst hf
  subst ht
  rfl

theorem set_max_memory_deterministic_witness :
    LLM.set_max_memory 2 (4/5) 40 = LLM.set_max_memory 2 (4/5) 40 :=
  set_max_memory_deterministic 2 2 (4/5) (4/5) 40 40 rfl rfl rfl

/-- The decoding-parameter record passed to model.generate at
src/llm_inference.py lines 269-280, one field per keyword argument. -/
structure GenParams where
  max_new_tokens : Int
  min_length : Option Int
  num_beams : Int
  num_return_sequences : Int
  early_stopping : Bool
  do_sample : Bool
  temperature : ℚ
  top_k : Int
  top_p : ℚ
  deriving Repr, DecidableEq

/-- The external model backend capability used by generate_from_model:
tokenization of a batch of strings into a padded token-id matrix,
generation from a token matrix with explicit decoding parameters, and
batch decoding back to strings given the skip-special-tokens flag. -/
structure Backend where
  tokenize : List String → List (List Nat)
  generate : List (List Nat) → GenParams → List (List Nat)
  batch_decode : List (List Nat) → Bool → List String

namespace LLM

/-- The decoding parameters generate_from_model passes to model.generate
(src/llm_inference.py lines 271-279), built from the configuration; the
early_stopping argument is passed as not args.no_early_stop (line 275). -/
def genParamsOf (args : InferenceArguments) : GenParams where
  max_new_tokens := args.max_new_tokens
  min_length := args.min_length
  num_beams := args.num_beams
  num_return_sequences := args.num_return_sequences
  early_stopping := !args.no_early_stop
  do_sample := args.do_sample
  temperature := args.temperature
  top_k := args.top_k
  top_p := args.top_p

/-- Embedding of LLM.generate_from_model (src/llm_inference.py lines
262-292) over an abstract backend: tokenize the inputs, invoke generation
with the decoding parameters from the configuration, decode the resulting
token matrix with skip_special_tokens set to true (line 290), and reshape
with the actual batch size, the first dimension of the tokenized batch
(line 284). Timing and throughput logging (lines 268, 281-288) do not
affect the result and are omitted. -/
def generate_from_model (be : Backend) (args : InferenceArguments)
    (inputs : List String) : Except ReshapeError (List (List String)) :=
  let encoded_inputs := be.tokenize inputs
  let model_outputs := be.generate encoded_inputs (genParamsOf args)
  let cur_batch_size := encoded_inputs.length
  let model_outputs_decoded := be.batch_decode model_outputs true
  reshape_model_outputs model_outputs_decoded cur_batch_size

end LLM

/-- C7: for every configuration, the orchestrator passes the
early-stopping parameter to the backend generate call as the logical
negation of the disable-early-stopping flag, and decodes the produced
token sequences with the skip-special-tokens flag set to true before
reshaping them by the actual batch size. -/
theorem generate_from_model_passes_params (be : Backend)
    (args : InferenceArguments) (inputs : List String) :
    (LLM.genParamsOf args).early_stopping = !args.no_early_stop ∧
    ((LLM.genParamsOf args).early_stopping = true ↔ args.no_early_stop = false) ∧
    LLM.generate_from_model be args inputs =
      LLM.reshape_model_outputs
        (be.batch_decode
          (be.generate (be.tokenize inputs) (LLM.genParamsOf args)) true)
        (be.tokenize inputs).length := by
  refine ⟨rfl, ?_, rfl⟩
  simp [LLM.genParamsOf]

/-- C3 as stated is false: the InferenceArguments dataclass performs no
validation, so construction with top_p = 1.5 succeeds, construction with
num_beams = 0 succeeds and construction with batch_size = 0 succeeds,
rather than failing with a ConfigurationError. -/
theorem construct_invalid_values_succeed :
    InferenceArguments.construct { model_name_or_path := "m", top_p := 3/2 } =
      .ok { model_name_or_path := "m", top_p := 3/2 } ∧
    InferenceArguments.construct { model_name_or_path := "m", num_beams := 0 } =
      .ok { model_name_or_path := "m", num_beams := 0 } ∧
    InferenceArguments.construct { model_name_or_path := "m", batch_size := 0 } =
      .ok { model_name_or_path := "m", batch_size := 0 } :=
  ⟨rfl, rfl, rfl⟩

/-- C3 amended: constructing an InferenceArguments record never fails; no
value is rejected (there is no validation and no raised
ConfigurationError), and the defaults are batch size 8, 1 beam, 1 return
sequence and top_p 9/10. -/
theorem construct_never_fails :
    (∀ a : InferenceArguments, InferenceArguments.construct a = .ok a) ∧
    ({ model_name_or_path := "m" } : InferenceArguments).batch_size = 8 ∧
    ({ model_name_or_path := "m" } : InferenceArguments).num_beams = 1 ∧
    ({ model_name_or_path := "m" } : InferenceArguments).num_return_sequences = 1 ∧
    ({ model_name_or_path := "m" } : InferenceArguments).top_p = 9/10 :=
  ⟨fun _ => rfl, rfl, rfl, rfl, rfl⟩

end LLMInference
